import Mathlib

/-!
Verification development for the Stellarium TelescopeControl plug-in core
(`src/plugins/TelescopeControl/src/TelescopeControl.hpp`).

Only the class header is available in the repository snapshot; the member
function bodies (TelescopeControl.cpp) are missing.  The definitions below
therefore embed the slot registry, transport lifecycle, communication loop
and configuration store as described by the specification, keeping the
declared names, signatures and documented return conventions of the header.
-/

set_option autoImplicit false

namespace TelescopeControlSpec

/-- Modelled from the spec: `MAX_SLOTS` is the fixed upper bound of the
addressable slot range `[1, MAX_SLOTS]` (the constant lives in the missing
`TelescopeControlGlobals.hpp`; the spec fixes it at 9). -/
def MAX_SLOTS : Int := 9

/-- Modelled from the header declaration `bool isValidSlotNumber(int slot) const`:
checks whether the argument is a slot number in `[1, MAX_SLOTS]`. -/
def isValidSlotNumber (slot : Int) : Bool :=
  decide (1 ≤ slot) && decide (slot ≤ MAX_SLOTS)

/-- A telescope description is a property map (the embedding of `QVariantMap`):
an association list from field names to field values.  An empty list is the
empty map. -/
def Props : Type := List (String × String)

instance : DecidableEq Props := by
  unfold Props
  infer_instance

/-- A 3D direction vector (the embedding of `Vec3d`; components are kept
abstract integers since the core only passes directions through). -/
structure Vec3 where
  x : Int
  y : Int
  z : Int
deriving DecidableEq, Repr

/-- Connection states of a transport:
`Disconnected → Connecting → Connected`, plus `Failed`. -/
inductive ConnState where
  | Disconnected
  | Connecting
  | Connected
  | Failed
deriving DecidableEq, Repr

/-- The closed set of connection kinds of a telescope description. -/
inductive ConnectionKind where
  | localConnection
  | remoteOrLocalAtAddress
  | localAtAddressAscom
  | remoteAscom
  | virtualStellarium
deriving DecidableEq, Repr

/-- Modelled from the spec: only the server-bridging kind spawns a local
server subprocess. -/
def kindSpawnsProcess : ConnectionKind → Bool
  | ConnectionKind.localConnection => true
  | _ => false

/-- First-match lookup in a string-keyed property map. -/
def lookupS : List (String × String) → String → Option String
  | [], _ => none
  | p :: ps, k => if p.1 = k then some p.2 else lookupS ps k

/-- First-match lookup in a slot-keyed association list (the embedding of
`QMap<int, _>::value`). -/
def lookupA {α : Type} : List (Int × α) → Int → Option α
  | [], _ => none
  | p :: ps, k => if p.1 = k then some p.2 else lookupA ps k

/-- Insertion into a slot-keyed association list, replacing any previous
entry with the same key (the embedding of `QMap<int, _>::insert`). -/
def insertA {α : Type} (l : List (Int × α)) (k : Int) (v : α) : List (Int × α) :=
  (k, v) :: l.filter (fun p => p.1 ≠ k)

/-- Removal of a key from a slot-keyed association list (the embedding of
`QMap<int, _>::remove`). -/
def eraseA {α : Type} (l : List (Int × α)) (k : Int) : List (Int × α) :=
  l.filter (fun p => p.1 ≠ k)

/-- Modelled from the spec: reading the connection kind field out of a
description's property map; a missing field or an unrecognized value yields
`none`. -/
def parseConnectionKind (props : Props) : Option ConnectionKind :=
  match lookupS props "connection" with
  | some "local" => some ConnectionKind.localConnection
  | some "remote" => some ConnectionKind.remoteOrLocalAtAddress
  | some "local_ascom" => some ConnectionKind.localAtAddressAscom
  | some "remote_ascom" => some ConnectionKind.remoteAscom
  | some "virtual" => some ConnectionKind.virtualStellarium
  | _ => none

/-- The runtime state of one live transport (the embedding of
`TelescopeClient`): its connection state, the at-most-one outstanding queued
goto direction, and the last known mount position with its timestamp. -/
structure TelescopeClient where
  kind : ConnectionKind
  connState : ConnState
  queuedGoto : Option Vec3
  lastPosition : Option (Vec3 × Nat)
deriving DecidableEq, Repr

/-- The registry state of the `TelescopeControl` module: the persisted
slot-to-description mapping `telescopeDescriptions`, the live transports
`telescopeClients`, the slots holding open per-slot log handles
`telescopeServerLogFiles`, and the `useTelescopeServerLogs` flag. -/
structure TelescopeControl where
  telescopeDescriptions : List (Int × Props)
  telescopeClients : List (Int × TelescopeClient)
  telescopeServerLogFiles : List Int
  useTelescopeServerLogs : Bool
deriving DecidableEq

/-- Modelled from the spec: `addTelescopeAtSlot` stores the given property
map at the slot unconditionally (no field validation) and returns `true`;
it returns `false`, touching nothing, only when the slot number is outside
`[1, MAX_SLOTS]`. -/
def addTelescopeAtSlot (s : TelescopeControl) (slot : Int) (properties : Props) :
    TelescopeControl × Bool :=
  if isValidSlotNumber slot then
    ({ s with telescopeDescriptions := insertA s.telescopeDescriptions slot properties }, true)
  else
    (s, false)

/-- Modelled from the header declaration `const QVariantMap getTelescopeAtSlot(int) const`:
retrieves a telescope description, returning the empty map if there is
nothing at that slot; being `const`, it never modifies the registry. -/
def getTelescopeAtSlot (s : TelescopeControl) (slot : Int) : Props :=
  (lookupA s.telescopeDescriptions slot).getD []

/-- Modelled from the spec: `removeTelescopeAtSlot` erases the stored
description only; a live transport at the slot is NOT implicitly stopped.
Fails (returns `false`, touching nothing) if the slot is invalid. -/
def removeTelescopeAtSlot (s : TelescopeControl) (slot : Int) :
    TelescopeControl × Bool :=
  if isValidSlotNumber slot then
    ({ s with telescopeDescriptions := eraseA s.telescopeDescriptions slot }, true)
  else
    (s, false)

/-- Modelled from the header declaration `bool isExistingClientAtSlot(int)`:
checks if there is a `TelescopeClient` object at a given slot. -/
def isExistingClientAtSlot (s : TelescopeControl) (slot : Int) : Bool :=
  (lookupA s.telescopeClients slot).isSome

/-- Modelled from the spec: the `createClient` factory dispatches on the
description's connection kind; an unrecognized kind yields no client, a
server-bridging kind additionally fails when the server process cannot be
spawned (`spawnOk = false`).  On success the new client starts out
`Connecting` with empty queue and no known position. -/
def createClient (properties : Props) (spawnOk : Bool) : Option TelescopeClient :=
  match parseConnectionKind properties with
  | none => none
  | some k =>
    if kindSpawnsProcess k && !spawnOk then none
    else some { kind := k, connState := ConnState.Connecting,
                queuedGoto := none, lastPosition := none }

/-- Modelled from the spec: `startTelescopeAtSlot` requires a valid slot, a
stored description and no existing live transport; it creates the client via
`createClient` (spawning a server process if necessary, whose outcome is the
`spawnOk` input) and opens the per-slot log when logging is enabled.  Any
failure returns `false` with the registry untouched. -/
def startTelescopeAtSlot (s : TelescopeControl) (slot : Int) (spawnOk : Bool) :
    TelescopeControl × Bool :=
  if isValidSlotNumber slot then
    let properties := getTelescopeAtSlot s slot
    if properties = [] then (s, false)
    else if isExistingClientAtSlot s slot then (s, false)
    else
      match createClient properties spawnOk with
      | none => (s, false)
      | some c =>
        ({ s with telescopeClients := insertA s.telescopeClients slot c,
                  telescopeServerLogFiles :=
                    if s.useTelescopeServerLogs then slot :: s.telescopeServerLogFiles
                    else s.telescopeServerLogFiles }, true)
  else
    (s, false)

/-- Modelled from the spec: `stopClientAtSlot` returns `true` if the client
has been stopped successfully or does not exist (idempotent no-op in the
latter case).  Stopping an existing client removes the transport entry and
closes the per-slot log; for a server-owning client the boolean result is
`termConfirmed` — whether termination of the spawned process was confirmed
within the grace period — while bookkeeping is removed either way. -/
def stopClientAtSlot (s : TelescopeControl) (slot : Int) (termConfirmed : Bool) :
    TelescopeControl × Bool :=
  match lookupA s.telescopeClients slot with
  | none => (s, true)
  | some c =>
    ({ s with telescopeClients := eraseA s.telescopeClients slot,
              telescopeServerLogFiles :=
                s.telescopeServerLogFiles.filter (fun k => k ≠ slot) },
     if kindSpawnsProcess c.kind then termConfirmed else true)

/-- Modelled from the spec: `stopTelescopeAtSlot` validates the slot number
and then delegates to `stopClientAtSlot`; an invalid slot returns `false`
with the registry untouched. -/
def stopTelescopeAtSlot (s : TelescopeControl) (slot : Int) (termConfirmed : Bool) :
    TelescopeControl × Bool :=
  if isValidSlotNumber slot then stopClientAtSlot s slot termConfirmed
  else (s, false)

/-- Modelled from the spec: `telescopeGoto` queues a goto request on the
slot's live transport; a newer request overwrites (supersedes) an older
unsent one for the same slot.  A slot without a live transport is left
unchanged. -/
def telescopeGoto (s : TelescopeControl) (slot : Int) (j2000Pos : Vec3) :
    TelescopeControl :=
  { s with telescopeClients := s.telescopeClients.map (fun p =>
      (p.1, if p.1 = slot then { p.2 with queuedGoto := some j2000Pos } else p.2)) }

/-- The inbound traffic one transport presents during a tick: either the
drained list of position reports, or a framing/protocol error. -/
inductive Inbound where
  | messages (reports : List (Vec3 × Nat))
  | framingError
deriving DecidableEq, Repr

/-- Modelled from the spec: the per-transport step of one communication
tick.  A framing or protocol error marks the transport `Failed` and sends
nothing; otherwise the drained reports update the last known position (the
newest report wins) and the queued goto command, if any, is sent and
cleared.  Returns the stepped client and the direction sent, if any. -/
def stepClient (c : TelescopeClient) (inp : Inbound) :
    TelescopeClient × Option Vec3 :=
  match inp with
  | Inbound.framingError => ({ c with connState := ConnState.Failed }, none)
  | Inbound.messages reports =>
    ({ c with lastPosition :=
                match reports.getLast? with
                | some r => some r
                | none => c.lastPosition,
              queuedGoto := none },
     c.queuedGoto)

/-- Modelled from the spec: `communicate` performs one tick of the
communication loop.  Every slot with a live transport is serviced with
`stepClient` against that slot's inbound traffic `env slot`; the tick never
aborts.  Returns the updated registry and the list of goto commands sent
this tick, as slot/direction pairs. -/
def communicate (s : TelescopeControl) (env : Int → Inbound) :
    TelescopeControl × List (Int × Vec3) :=
  let stepped := s.telescopeClients.map (fun p => (p.1, stepClient p.2 (env p.1)))
  ({ s with telescopeClients := stepped.map (fun q => (q.1, q.2.1)) },
   stepped.filterMap (fun q => Option.map (fun d => (q.1, d)) q.2.2))

/-- The persisted telescope-description document (`telescopes.json`): either
missing, unparsable (corrupt), or a JSON object mapping slot-number string
keys to description objects. -/
inductive JsonDoc where
  | missing
  | corrupt
  | object (entries : List (String × Props))
deriving DecidableEq

/-- Numeric value of a decimal digit character, `none` otherwise. -/
def charDigit (c : Char) : Option Nat :=
  if '0' ≤ c ∧ c ≤ '9' then some (c.toNat - 48) else none

/-- Accumulating decimal parser over a list of characters. -/
def parseNatAux : List Char → Nat → Option Nat
  | [], acc => some acc
  | c :: cs, acc =>
    match charDigit c with
    | some d => parseNatAux cs (acc * 10 + d)
    | none => none

/-- Parses a slot-number string key back to an integer (the embedding of
`QString::toInt` restricted to the non-negative keys the store writes);
fails on an empty or non-numeric key. -/
def parseSlotKey (key : String) : Option Int :=
  match key.data with
  | [] => none
  | cs => (parseNatAux cs 0).map Int.ofNat

/-- Modelled from the spec: `saveTelescopes` serializes the full
slot-to-description mapping to the document, writing each slot number as a
string key. -/
def saveTelescopes (descriptions : List (Int × Props)) : JsonDoc :=
  JsonDoc.object (descriptions.map (fun p => (toString p.1, p.2)))

/-- Modelled from the spec: `loadTelescopes` deserializes the document back
to a slot-to-description mapping; a missing or corrupt document yields the
empty mapping rather than an error, and entries whose key is not a valid
slot number are dropped. -/
def loadTelescopes (doc : JsonDoc) : List (Int × Props) :=
  match doc with
  | JsonDoc.missing => []
  | JsonDoc.corrupt => []
  | JsonDoc.object entries =>
    entries.filterMap (fun p =>
      match parseSlotKey p.1 with
      | some n => if isValidSlotNumber n then some (n, p.2) else none
      | none => none)

/-- A registry with no descriptions, no clients and no logs (the state right
after construction). -/
def emptyRegistry : TelescopeControl :=
  { telescopeDescriptions := [], telescopeClients := [],
    telescopeServerLogFiles := [], useTelescopeServerLogs := false }

/-- A sample description for concrete evaluations. -/
def sampleProps : Props :=
  [("name", "Scope"), ("connection", "virtual")]

/-- A sample live transport for concrete evaluations. -/
def sampleClient : TelescopeClient :=
  { kind := ConnectionKind.virtualStellarium, connState := ConnState.Connected,
    queuedGoto := none, lastPosition := none }

/-- A registry holding a description at slot 1 and live transports at
slots 1 and 2, for concrete evaluations. -/
def sampleRegistry : TelescopeControl :=
  { telescopeDescriptions := [(1, sampleProps)],
    telescopeClients := [(1, sampleClient), (2, sampleClient)],
    telescopeServerLogFiles := [], useTelescopeServerLogs := false }

/-- A registry holding a description at slot 1 but no live transport, so
that slot 1 can be started. -/
def startableRegistry : TelescopeControl :=
  { telescopeDescriptions := [(1, sampleProps)], telescopeClients := [],
    telescopeServerLogFiles := [], useTelescopeServerLogs := false }

/-- A slot-to-description mapping filling all `MAX_SLOTS` slots, for
concrete evaluations. -/
def fullMapping : List (Int × Props) :=
  [(1, sampleProps), (2, sampleProps), (3, sampleProps), (4, sampleProps),
   (5, sampleProps), (6, sampleProps), (7, sampleProps), (8, sampleProps),
   (9, sampleProps)]

/-- An inbound-traffic environment for concrete evaluations: slot 1
presents a framing error during the tick, every other slot drains no
messages. -/
def envWitness : Int → Inbound :=
  fun k => if k = 1 then Inbound.framingError else Inbound.messages []

/-! Helper lemmas about association lists and the serialization layer. -/

theorem lookupA_map_keyed {α β : Type} (l : List (Int × α)) (f : Int → α → β)
    (k : Int) :
    lookupA (l.map (fun p => (p.1, f p.1 p.2))) k = (lookupA l k).map (f k) := by
  induction l with
  | nil => rfl
  | cons p ps ih =>
    by_cases h : p.1 = k
    · simp [lookupA, h]
    · simp [lookupA, h, ih]

theorem mem_filterMap_of_lookupA {α β : Type} {l : List (Int × α)} {k : Int}
    {v : α} (f : Int → α → Option β) {y : β}
    (hl : lookupA l k = some v) (hy : f k v = some y) :
    y ∈ l.filterMap (fun p => f p.1 p.2) := by
  induction l with
  | nil => simp [lookupA] at hl
  | cons p ps ih =>
    by_cases h : p.1 = k
    · simp [lookupA, h] at hl
      subst hl
      simp [List.filterMap_cons, h, hy]
    · simp [lookupA, h] at hl
      rcases hfp : f p.1 p.2 with _ | w <;>
        simp [List.filterMap_cons, hfp, ih hl]

theorem lookupA_eraseA_self {α : Type} (l : List (Int × α)) (k : Int) :
    lookupA (eraseA l k) k = none := by
  induction l with
  | nil => rfl
  | cons p ps ih =>
    by_cases h : p.1 = k
    · simpa [eraseA, h] using ih
    · simpa [eraseA, lookupA, h] using ih

theorem parseSlotKey_toString_of_valid (n : Int) (h : isValidSlotNumber n = true) :
    parseSlotKey (toString n) = some n := by
  have hb : 1 ≤ n ∧ n ≤ MAX_SLOTS := by simpa [isValidSlotNumber] using h
  have h1 : 1 ≤ n := hb.1
  have h2 : n ≤ 9 := by simpa [MAX_SLOTS] using hb.2
  interval_cases n <;> decide

/-! Claim theorems. -/

/-- C1: For every slot number outside `[1, MAX_SLOTS]`, each registry
operation (`addTelescopeAtSlot`, `removeTelescopeAtSlot`,
`startTelescopeAtSlot`, `stopTelescopeAtSlot`) returns `false` and leaves
the whole registry state (stored descriptions, live clients, log handles)
unchanged. -/
theorem invalid_slot_operations_fail (s : TelescopeControl) (slot : Int)
    (properties : Props) (spawnOk termConfirmed : Bool)
    (h : isValidSlotNumber slot = false) :
    addTelescopeAtSlot s slot properties = (s, false) ∧
    removeTelescopeAtSlot s slot = (s, false) ∧
    startTelescopeAtSlot s slot spawnOk = (s, false) ∧
    stopTelescopeAtSlot s slot termConfirmed = (s, false) := by
  refine ⟨?_, ?_, ?_, ?_⟩ <;>
    simp [addTelescopeAtSlot, removeTelescopeAtSlot, startTelescopeAtSlot,
      stopTelescopeAtSlot, h]

/-- Witness for C1: the four operations at the invalid slot 0 on a sample
registry all return `false` and leave the registry unchanged. -/
theorem invalid_slot_operations_fail_witness :
    addTelescopeAtSlot sampleRegistry 0 sampleProps = (sampleRegistry, false) ∧
    removeTelescopeAtSlot sampleRegistry 0 = (sampleRegistry, false) ∧
    startTelescopeAtSlot sampleRegistry 0 true = (sampleRegistry, false) ∧
    stopTelescopeAtSlot sampleRegistry 0 true = (sampleRegistry, false) :=
  invalid_slot_operations_fail sampleRegistry 0 sampleProps true true (by decide)

/-- C5: A missing or corrupt persisted telescope-description document loads
as the empty mapping; `loadTelescopes` is total, so no error reaches the
caller and the registry starts in a valid (possibly empty) state. -/
theorem loadTelescopes_missing_corrupt_empty :
    loadTelescopes JsonDoc.missing = [] ∧ loadTelescopes JsonDoc.corrupt = [] :=
  ⟨rfl, rfl⟩

/-- C7: For every valid slot with no live transport, `stopTelescopeAtSlot`
returns `true` and changes nothing, so stopping twice in a row equals
stopping once. -/
theorem stopTelescopeAtSlot_noop_idempotent (s : TelescopeControl) (slot : Int)
    (t1 t2 : Bool) (hv : isValidSlotNumber slot = true)
    (hc : lookupA s.telescopeClients slot = none) :
    stopTelescopeAtSlot s slot t1 = (s, true) ∧
    stopTelescopeAtSlot (stopTelescopeAtSlot s slot t1).1 slot t2 = (s, true) := by
  have h1 : stopTelescopeAtSlot s slot t1 = (s, true) := by
    simp [stopTelescopeAtSlot, stopClientAtSlot, hv, hc]
  refine ⟨h1, ?_⟩
  rw [h1]
  simp [stopTelescopeAtSlot, stopClientAtSlot, hv, hc]

/-- Witness for C7: stopping the client-free valid slot 3 of a sample
registry twice returns `true` both times and leaves the registry intact. -/
theorem stopTelescopeAtSlot_noop_idempotent_witness :
    stopTelescopeAtSlot sampleRegistry 3 true = (sampleRegistry, true) ∧
    stopTelescopeAtSlot (stopTelescopeAtSlot sampleRegistry 3 true).1 3 false
      = (sampleRegistry, true) :=
  stopTelescopeAtSlot_noop_idempotent sampleRegistry 3 true false (by decide)
    (by decide)

/-- C8: For every slot in `[1, MAX_SLOTS]` and every property map (however
incomplete or malformed its fields), `addTelescopeAtSlot` returns `true` and
stores the map verbatim — no field is validated. -/
theorem addTelescopeAtSlot_stores_unconditionally (s : TelescopeControl)
    (slot : Int) (properties : Props) (hv : isValidSlotNumber slot = true) :
    (addTelescopeAtSlot s slot properties).2 = true ∧
    lookupA (addTelescopeAtSlot s slot properties).1.telescopeDescriptions slot
      = some properties ∧
    getTelescopeAtSlot (addTelescopeAtSlot s slot properties).1 slot
      = properties := by
  refine ⟨?_, ?_, ?_⟩ <;>
    simp [addTelescopeAtSlot, hv, getTelescopeAtSlot, insertA, lookupA]

/-- Witness for C8: adding a malformed one-field description at slot 2
succeeds and stores it verbatim. -/
theorem addTelescopeAtSlot_stores_unconditionally_witness :
    (addTelescopeAtSlot emptyRegistry 2 [("bogus", "")]).2 = true ∧
    lookupA (addTelescopeAtSlot emptyRegistry 2
        [("bogus", "")]).1.telescopeDescriptions 2 = some [("bogus", "")] ∧
    getTelescopeAtSlot (addTelescopeAtSlot emptyRegistry 2 [("bogus", "")]).1 2
      = [("bogus", "")] :=
  addTelescopeAtSlot_stores_unconditionally emptyRegistry 2 [("bogus", "")]
    (by decide)

/-- C9: For every valid slot holding both a stored description and a live
transport, `removeTelescopeAtSlot` returns `true`, erases only the stored
description, and does not stop the transport: the client map and the log
handles are untouched and `isExistingClientAtSlot` stays `true`. -/
theorem removeTelescopeAtSlot_keeps_transport (s : TelescopeControl)
    (slot : Int) (d : Props) (c : TelescopeClient)
    (hv : isValidSlotNumber slot = true)
    (_hd : lookupA s.telescopeDescriptions slot = some d)
    (hc : lookupA s.telescopeClients slot = some c) :
    (removeTelescopeAtSlot s slot).2 = true ∧
    lookupA (removeTelescopeAtSlot s slot).1.telescopeDescriptions slot
      = none ∧
    (removeTelescopeAtSlot s slot).1.telescopeClients = s.telescopeClients ∧
    (removeTelescopeAtSlot s slot).1.telescopeServerLogFiles
      = s.telescopeServerLogFiles ∧
    isExistingClientAtSlot (removeTelescopeAtSlot s slot).1 slot = true := by
  refine ⟨?_, ?_, ?_, ?_, ?_⟩ <;>
    simp [removeTelescopeAtSlot, hv, lookupA_eraseA_self,
      isExistingClientAtSlot, hc]

/-- Witness for C9: removing slot 1 of the sample registry (which has both
a description and a live transport there) erases the description but keeps
the transport alive. -/
theorem removeTelescopeAtSlot_keeps_transport_witness :
    (removeTelescopeAtSlot sampleRegistry 1).2 = true ∧
    lookupA (removeTelescopeAtSlot sampleRegistry 1).1.telescopeDescriptions 1
      = none ∧
    (removeTelescopeAtSlot sampleRegistry 1).1.telescopeClients
      = sampleRegistry.telescopeClients ∧
    (removeTelescopeAtSlot sampleRegistry 1).1.telescopeServerLogFiles
      = sampleRegistry.telescopeServerLogFiles ∧
    isExistingClientAtSlot (removeTelescopeAtSlot sampleRegistry 1).1 1
      = true :=
  removeTelescopeAtSlot_keeps_transport sampleRegistry 1 sampleProps
    sampleClient (by decide) (by decide) (by decide)

/-- C10: `getTelescopeAtSlot` is total over all slots, valid or not: when no
description is stored at the slot it returns the empty map rather than
signalling an error; being a pure function of the registry (declared `const`
in the header), it modifies nothing. -/
theorem getTelescopeAtSlot_total_empty (s : TelescopeControl) (slot : Int)
    (h : lookupA s.telescopeDescriptions slot = none) :
    getTelescopeAtSlot s slot = [] := by
  simp [getTelescopeAtSlot, h]

/-- Witness for C10: querying the invalid slot 0 of the sample registry
yields the empty map. -/
theorem getTelescopeAtSlot_total_empty_witness :
    getTelescopeAtSlot sampleRegistry 0 = [] :=
  getTelescopeAtSlot_total_empty sampleRegistry 0 (by decide)

/-- C4: Saving any slot-to-description mapping whose keys are valid slot
numbers (in particular mappings with zero, one, or `MAX_SLOTS` entries) with
`saveTelescopes` and loading the document back with `loadTelescopes`
reproduces a mapping equal to the one saved. -/
theorem saveTelescopes_loadTelescopes_roundtrip (m : List (Int × Props))
    (h : ∀ p ∈ m, isValidSlotNumber p.1 = true) :
    loadTelescopes (saveTelescopes m) = m := by
  induction m with
  | nil => rfl
  | cons p ps ih =>
    have hp : isValidSlotNumber p.1 = true := h p (List.mem_cons_self p ps)
    have hk := parseSlotKey_toString_of_valid p.1 hp
    have ih2 := ih (fun q hq => h q (List.mem_cons_of_mem p hq))
    simp only [saveTelescopes, loadTelescopes, List.map_cons,
      List.filterMap_cons, hk, hp, if_true] at ih2 ⊢
    simp [ih2]

/-- Witness for C4: the round trip on a concrete mapping occupying all nine
slots reproduces it exactly. -/
theorem saveTelescopes_loadTelescopes_roundtrip_witness :
    loadTelescopes (saveTelescopes fullMapping) = fullMapping :=
  saveTelescopes_loadTelescopes_roundtrip fullMapping (by decide)

/-- Helper: a client produced by the `createClient` factory starts out in
the `Connecting` state. -/
theorem createClient_connState (properties : Props) (spawnOk : Bool)
    (c : TelescopeClient) (h : createClient properties spawnOk = some c) :
    c.connState = ConnState.Connecting := by
  unfold createClient at h
  split at h
  · exact absurd h (by simp)
  · split at h
    · exact absurd h (by simp)
    · cases h
      rfl

/-- C2: `startTelescopeAtSlot` fails (returns `false`) and creates no
transport whenever the slot has no stored description, already holds a live
transport, the connection kind of the description is unrecognized, or the
server-process spawn fails; whenever it succeeds, a live transport exists at
the slot in state `Connecting` or `Connected`. -/
theorem startTelescopeAtSlot_spec (s : TelescopeControl) (slot : Int)
    (spawnOk : Bool) :
    (getTelescopeAtSlot s slot = [] →
      startTelescopeAtSlot s slot spawnOk = (s, false)) ∧
    (isExistingClientAtSlot s slot = true →
      startTelescopeAtSlot s slot spawnOk = (s, false)) ∧
    (parseConnectionKind (getTelescopeAtSlot s slot) = none →
      startTelescopeAtSlot s slot spawnOk = (s, false)) ∧
    (∀ k, parseConnectionKind (getTelescopeAtSlot s slot) = some k →
      kindSpawnsProcess k = true → spawnOk = false →
      startTelescopeAtSlot s slot spawnOk = (s, false)) ∧
    ((startTelescopeAtSlot s slot spawnOk).2 = true →
      isExistingClientAtSlot (startTelescopeAtSlot s slot spawnOk).1 slot
        = true ∧
      ∃ c, lookupA (startTelescopeAtSlot s slot spawnOk).1.telescopeClients
          slot = some c ∧
        (c.connState = ConnState.Connecting ∨
          c.connState = ConnState.Connected)) := by
  by_cases hv : isValidSlotNumber slot
  · by_cases he : getTelescopeAtSlot s slot = []
    · refine ⟨fun _ => ?_, fun _ => ?_, fun _ => ?_, fun k _ _ _ => ?_, ?_⟩ <;>
        simp [startTelescopeAtSlot, hv, he]
    · by_cases hx : isExistingClientAtSlot s slot = true
      · refine ⟨fun hcon => absurd hcon he, fun _ => ?_, fun _ => ?_,
          fun k _ _ _ => ?_, ?_⟩ <;>
          simp [startTelescopeAtSlot, hv, he, hx]
      · rcases hcc : createClient (getTelescopeAtSlot s slot) spawnOk
          with _ | c
        · refine ⟨fun hcon => absurd hcon he, fun hcon => absurd hcon hx,
            fun _ => ?_, fun k _ _ _ => ?_, ?_⟩ <;>
            simp [startTelescopeAtSlot, hv, he, hx, hcc]
        · have hfail : ∀ k, parseConnectionKind (getTelescopeAtSlot s slot)
              = some k → kindSpawnsProcess k = true → spawnOk = false →
              startTelescopeAtSlot s slot spawnOk = (s, false) := by
            intro k hk hsp hso
            rw [hso] at hcc
            unfold createClient at hcc
            rw [hk] at hcc
            simp [hsp] at hcc
          have hnone : parseConnectionKind (getTelescopeAtSlot s slot) = none →
              startTelescopeAtSlot s slot spawnOk = (s, false) := by
            intro hk
            unfold createClient at hcc
            rw [hk] at hcc
            simp at hcc
          refine ⟨fun hcon => absurd hcon he, fun hcon => absurd hcon hx,
            hnone, hfail, fun _ => ?_⟩
          have hstart : (startTelescopeAtSlot s slot spawnOk).1.telescopeClients
              = insertA s.telescopeClients slot c := by
            simp [startTelescopeAtSlot, hv, he, hx, hcc]
          refine ⟨?_, c, ?_, Or.inl (createClient_connState _ _ _ hcc)⟩ <;>
            simp [isExistingClientAtSlot, hstart, insertA, lookupA]
  · have hf : startTelescopeAtSlot s slot spawnOk = (s, false) := by
      simp [startTelescopeAtSlot, hv]
    refine ⟨fun _ => hf, fun _ => hf, fun _ => hf, fun _ _ _ _ => hf, ?_⟩
    rw [hf]
    intro hcon
    exact absurd hcon (by simp)

/-- Witness for C2: starting slot 1 of a registry holding a virtual-kind
description there succeeds and yields a live transport in the `Connecting`
state; the success conjunct of the theorem is applied at that input. -/
theorem startTelescopeAtSlot_spec_witness :
    isExistingClientAtSlot (startTelescopeAtSlot startableRegistry 1 true).1 1
      = true ∧
    ∃ c, lookupA (startTelescopeAtSlot startableRegistry 1
        true).1.telescopeClients 1 = some c ∧
      (c.connState = ConnState.Connecting ∨
        c.connState = ConnState.Connected) :=
  (startTelescopeAtSlot_spec startableRegistry 1 true).2.2.2.2 (by decide)

/-- Helper: looking up a slot after one communication tick yields the
per-transport step of the client that was there. -/
theorem communicate_lookupA (s : TelescopeControl) (env : Int → Inbound)
    (k : Int) :
    lookupA (communicate s env).1.telescopeClients k
      = (lookupA s.telescopeClients k).map
          (fun a => (stepClient a (env k)).1) := by
  show lookupA
      ((s.telescopeClients.map (fun p => (p.1, stepClient p.2 (env p.1)))).map
        (fun q => (q.1, q.2.1))) k = _
  rw [List.map_map]
  exact lookupA_map_keyed s.telescopeClients
    (fun k2 a => (stepClient a (env k2)).1) k

/-- Helper: a transport whose step sends a direction contributes that
slot/direction pair to the tick's sent list. -/
theorem communicate_sent_mem (s : TelescopeControl) (env : Int → Inbound)
    (k : Int) (a : TelescopeClient) (d : Vec3)
    (h : lookupA s.telescopeClients k = some a)
    (hd : (stepClient a (env k)).2 = some d) :
    (k, d) ∈ (communicate s env).2 := by
  show (k, d) ∈
    (s.telescopeClients.map (fun p => (p.1, stepClient p.2 (env p.1)))).filterMap
      (fun q => Option.map (fun e => (q.1, e)) q.2.2)
  rw [List.filterMap_map]
  exact mem_filterMap_of_lookupA
    (fun k2 a2 => Option.map (fun e => (k2, e)) (stepClient a2 (env k2)).2)
    h (by simp [hd])

/-- C3: During one `communicate` tick, a framing/protocol error on one
slot's transport marks only that transport `Failed`; every other slot with a
live transport is still serviced in the same tick — its client is stepped
against its own inbound traffic and its queued goto command, if sent by that
step, appears in the tick's sent list.  The tick itself is total and never
aborted. -/
theorem communicate_isolates_framing_error (s : TelescopeControl)
    (env : Int → Inbound) (slot : Int) (c : TelescopeClient)
    (hc : lookupA s.telescopeClients slot = some c)
    (he : env slot = Inbound.framingError) :
    lookupA (communicate s env).1.telescopeClients slot
      = some { c with connState := ConnState.Failed } ∧
    ∀ slot2 c2, slot2 ≠ slot →
      lookupA s.telescopeClients slot2 = some c2 →
      lookupA (communicate s env).1.telescopeClients slot2
        = some (stepClient c2 (env slot2)).1 ∧
      ∀ d, (stepClient c2 (env slot2)).2 = some d →
        (slot2, d) ∈ (communicate s env).2 := by
  constructor
  · rw [communicate_lookupA, hc]
    simp [stepClient, he]
  · intro slot2 c2 _ hc2
    constructor
    · rw [communicate_lookupA, hc2]
      rfl
    · intro d hd
      exact communicate_sent_mem s env slot2 c2 d hc2 hd

/-- Witness for C3: with a framing error arriving at slot 1 of the sample
registry, slot 1's transport ends the tick `Failed` while slot 2's transport
is still stepped normally. -/
theorem communicate_isolates_framing_error_witness :
    lookupA (communicate sampleRegistry envWitness).1.telescopeClients 1
      = some { sampleClient with connState := ConnState.Failed } ∧
    lookupA (communicate sampleRegistry envWitness).1.telescopeClients 2
      = some (stepClient sampleClient (envWitness 2)).1 := by
  have h := communicate_isolates_framing_error sampleRegistry envWitness 1
    sampleClient (by decide) (by decide)
  exact ⟨h.1, (h.2 2 sampleClient (by decide) (by decide)).1⟩

/-- Helper: after a `telescopeGoto` request, the slot's transport holds the
requested direction as its sole queued goto command. -/
theorem lookupA_telescopeGoto (s : TelescopeControl) (slot : Int) (d : Vec3)
    (c : TelescopeClient) (hc : lookupA s.telescopeClients slot = some c) :
    lookupA (telescopeGoto s slot d).telescopeClients slot
      = some { c with queuedGoto := some d } := by
  have h := lookupA_map_keyed s.telescopeClients
    (fun k a => if k = slot then { a with queuedGoto := some d } else a) slot
  rw [hc] at h
  simpa [telescopeGoto] using h

/-- C6: Two `telescopeGoto` requests for the same slot issued before the
next tick supersede rather than queue: the resulting registry equals the one
produced by the later request alone, the slot's transport holds only the
later direction, and the next `communicate` tick sends that later direction
for the slot. -/
theorem telescopeGoto_supersedes (s : TelescopeControl) (slot : Int)
    (c : TelescopeClient) (d1 d2 : Vec3) (env : Int → Inbound)
    (reports : List (Vec3 × Nat))
    (hc : lookupA s.telescopeClients slot = some c)
    (he : env slot = Inbound.messages reports) :
    telescopeGoto (telescopeGoto s slot d1) slot d2
      = telescopeGoto s slot d2 ∧
    lookupA (telescopeGoto (telescopeGoto s slot d1) slot
        d2).telescopeClients slot = some { c with queuedGoto := some d2 } ∧
    (slot, d2) ∈
      (communicate (telescopeGoto (telescopeGoto s slot d1) slot d2) env).2 := by
  have hmap : (s.telescopeClients.map (fun p =>
        (p.1, if p.1 = slot then { p.2 with queuedGoto := some d1 }
              else p.2))).map (fun p =>
        (p.1, if p.1 = slot then { p.2 with queuedGoto := some d2 }
              else p.2))
      = s.telescopeClients.map (fun p =>
          (p.1, if p.1 = slot then { p.2 with queuedGoto := some d2 }
                else p.2)) := by
    rw [List.map_map]
    apply List.map_congr_left
    intro p _
    by_cases h : p.1 = slot <;> simp [Function.comp, h]
  have hgoto : telescopeGoto (telescopeGoto s slot d1) slot d2
      = telescopeGoto s slot d2 :=
    congrArg (fun l => { s with telescopeClients := l }) hmap
  rw [hgoto]
  have hlook := lookupA_telescopeGoto s slot d2 c hc
  refine ⟨rfl, hlook, ?_⟩
  exact communicate_sent_mem _ env slot _ d2 hlook (by simp [stepClient, he])

/-- Witness for C6: issuing two goto requests at slot 2 of the sample
registry before a tick leaves only the second direction queued, and that
direction is the one sent by the tick. -/
theorem telescopeGoto_supersedes_witness :
    telescopeGoto (telescopeGoto sampleRegistry 2 ⟨1, 0, 0⟩) 2 ⟨0, 1, 0⟩
      = telescopeGoto sampleRegistry 2 ⟨0, 1, 0⟩ ∧
    lookupA (telescopeGoto (telescopeGoto sampleRegistry 2 ⟨1, 0, 0⟩) 2
        ⟨0, 1, 0⟩).telescopeClients 2
      = some { sampleClient with queuedGoto := some ⟨0, 1, 0⟩ } ∧
    (2, (⟨0, 1, 0⟩ : Vec3)) ∈
      (communicate (telescopeGoto (telescopeGoto sampleRegistry 2 ⟨1, 0, 0⟩) 2
        ⟨0, 1, 0⟩) envWitness).2 :=
  telescopeGoto_supersedes sampleRegistry 2 sampleClient ⟨1, 0, 0⟩ ⟨0, 1, 0⟩
    envWitness [] (by decide) (by decide)

end TelescopeControlSpec
